import Mathlib

/-!
Shallow embedding of the idempotent resource-ensurance and attestation
orchestration engine of the intuition-github-action repository:
  - src/utils/errors.ts   (ActionError hierarchy; `JsError` below)
  - src/utils/retry.ts    (withRetry / exponential backoff)
  - src/intuition/atoms.ts   (ensureProjectAtom / ensureContributorAtom)
  - src/intuition/triples.ts (ensureAttestationTriple)
  - src/services/attestation.ts (processAttestations / processContributor)

External ledger calls (the `@0xintuition/sdk` functions and the
IntuitionClient wallet operations) are modelled as an abstract `Gateway`
record of state-passing operations over an arbitrary world type `W`; the
embedded functions thread the world exactly where the source awaits the
corresponding call.  Thrown JS errors are `Except JsError`.
-/

namespace IntuitionAction

/-- The error taxonomy of src/utils/errors.ts.  Every constructor except
`generic` corresponds to a subclass of `ActionError`; `generic` stands for
a plain JS `Error` (or coerced thrown value) that is not an `ActionError`.
`actionBase` is the base class `ActionError` itself, constructed directly
with an explicit retryable flag (as in attestation.ts line 148). -/
inductive JsError where
  | invalidInput (message : String)
  | insufficientFunds (message : String)
  | network (message : String)
  | githubAPI (message : String) (statusCode : Option Nat)
  | transactionFailed (message : String) (txHash : Option String)
  | actionBase (message : String) (retryable : Bool)
  | generic (message : String)
  deriving DecidableEq, Repr

/-- `error instanceof ActionError` for the modelled errors. -/
def JsError.isActionError : JsError → Bool
  | .generic _ => false
  | _ => true

/-- The `isRetryable` flag each subclass fixes at construction time
(errors.ts): NetworkError → true; GitHubAPIError → true unless the status
code is 403 or 404; InvalidInput / InsufficientFunds / TransactionFailed
→ false.  For `generic` the field does not exist; the value returned here
for it is never consulted alone (retry.ts only reads it after an
`instanceof ActionError` check). -/
def JsError.isRetryable : JsError → Bool
  | .invalidInput _ => false
  | .insufficientFunds _ => false
  | .network _ => true
  | .githubAPI _ statusCode => !(statusCode == some 404 || statusCode == some 403)
  | .transactionFailed _ _ => false
  | .actionBase _ retryable => retryable
  | .generic _ => false

/-- `error.message` of the modelled error. -/
def JsError.message : JsError → String
  | .invalidInput m => m
  | .insufficientFunds m => m
  | .network m => m
  | .githubAPI m _ => m
  | .transactionFailed m _ => m
  | .actionBase m _ => m
  | .generic m => m

/-- retry.ts line 40: `error instanceof ActionError && !error.isRetryable`
— the condition under which withRetry rethrows immediately. -/
def JsError.isFatal (e : JsError) : Bool :=
  e.isActionError && !e.isRetryable

/-- RetryOptions of src/utils/retry.ts.  The defaults are those destructured
in `withRetry` (`exponentialBackoff = true`, `maxDelayMs = 30000`). -/
structure RetryOptions where
  maxAttempts : Nat
  delayMs : Nat
  exponentialBackoff : Bool := true
  maxDelayMs : Nat := 30000
  deriving DecidableEq, Repr

/-- The per-attempt sleep of retry.ts lines 50-52:
`exponentialBackoff ? min(delayMs * 2^(attempt-1), maxDelayMs) : delayMs`. -/
def backoffDelay (opts : RetryOptions) (attempt : Nat) : Nat :=
  if opts.exponentialBackoff then
    min (opts.delayMs * 2 ^ (attempt - 1)) opts.maxDelayMs
  else
    opts.delayMs

/-- Observable outcome of a `withRetry` run over world type `W`.
`result` is `.error none` exactly when the loop body never ran
(maxAttempts = 0) and retry.ts line 62 throws the undefined `lastError`;
`calls` counts invocations of the wrapped operation; `delays` lists the
sleeps actually performed, in order — the source emits exactly one
`core.warning` immediately before each such sleep, so `delays.length`
is also the number of warning observations. -/
structure RetryOut (W : Type u) (α : Type v) where
  result : Except (Option JsError) α
  world : W
  calls : Nat
  delays : List Nat
  deriving Repr

/-- The loop of retry.ts lines 33-60, iterating `attempt` while
`remaining` counts the attempts still permitted (so the loop guard
`attempt ≤ maxAttempts` corresponds to `remaining > 0`, and
`attempt === maxAttempts` — the final-attempt break — to
`remaining = 1`).  The operation is a state-passing fallible action. -/
def withRetryGo (fn : W → Except JsError α × W) (opts : RetryOptions) :
    Nat → Nat → W → RetryOut W α
  | _, 0, w => ⟨.error none, w, 0, []⟩
  | attempt, remaining + 1, w =>
    match fn w with
    | (.ok v, w') => ⟨.ok v, w', 1, []⟩
    | (.error e, w') =>
      if e.isFatal then ⟨.error (some e), w', 1, []⟩
      else if remaining = 0 then ⟨.error (some e), w', 1, []⟩
      else
        let d := backoffDelay opts attempt
        let out := withRetryGo fn opts (attempt + 1) remaining w'
        ⟨out.result, out.world, out.calls + 1, d :: out.delays⟩

/-- `withRetry` of src/utils/retry.ts: attempts are 1-indexed. -/
def withRetry (fn : W → Except JsError α × W) (opts : RetryOptions)
    (w : W) : RetryOut W α :=
  withRetryGo fn opts 1 opts.maxAttempts w

/-- ThingAtomData (src/intuition/types.ts). -/
structure ThingAtomData where
  name : String
  description : String
  url : String
  image : Option String := none
  deriving DecidableEq, Repr

/-- AtomCreationResult (src/intuition/types.ts); `cost` in wei as `Nat`. -/
structure AtomCreationResult where
  atomId : String
  vaultId : Nat
  txHash : String
  cost : Nat
  existed : Bool
  deriving DecidableEq, Repr

/-- TripleCreationResult (src/intuition/types.ts). -/
structure TripleCreationResult where
  tripleId : String
  vaultId : Nat
  txHash : String
  cost : Nat
  existed : Bool
  deriving DecidableEq, Repr

/-- TransactionResult (src/intuition/types.ts), returned by
`waitForConfirmation`. -/
structure TransactionResult where
  hash : String
  confirmed : Bool
  blockNumber : Option Nat := none
  deriving DecidableEq, Repr

/-- A record returned by the SDK lookups `findAtomIds` / `findTripleIds`;
the source only reads its `term_id` field, which may be absent or falsy. -/
structure FoundRecord where
  term_id : Option String
  deriving DecidableEq, Repr

/-- The part of the SDK result of `createAtomFromThing` the source reads:
`result.transactionHash` and `result.state.termId`. -/
structure AtomCreateResult where
  transactionHash : String
  termId : String
  deriving DecidableEq, Repr

/-- The part of the SDK result of `createTripleStatement` / `deposit` the
source reads: `result.transactionHash`. -/
structure TxSubmitResult where
  transactionHash : String
  deriving DecidableEq, Repr

/-- Hexadecimal digit value. -/
def hexDigitVal (c : Char) : Option Nat :=
  if '0' ≤ c ∧ c ≤ '9' then some (c.toNat - '0'.toNat)
  else if 'a' ≤ c ∧ c ≤ 'f' then some (c.toNat - 'a'.toNat + 10)
  else if 'A' ≤ c ∧ c ≤ 'F' then some (c.toNat - 'A'.toNat + 10)
  else none

/-- `BigInt(s)` on a `0x`-prefixed hex string, as applied by the source to
atom/triple ids to produce `vaultId` (non-hex characters contribute
nothing; the ids the gateway yields are well-formed hex). -/
def bigIntOfHex (s : String) : Nat :=
  (if s.startsWith "0x" then s.drop 2 else s).foldl
    (fun acc c => match hexDigitVal c with
      | some d => acc * 16 + d
      | none => acc) 0

/-- The external ledger interface the ensure operations consume: the
`@0xintuition/sdk` calls and the IntuitionClient operations, as
state-passing functions over an abstract world `W`.  `minDeposit` is
`client.getMinDeposit()` and `address` is `client.getAddress()`;
`calculateTripleId` is the SDK's pure triple-id derivation. -/
structure Gateway (W : Type) where
  minDeposit : Nat
  address : String
  findAtomIds : List String → W → Except JsError (List FoundRecord) × W
  ensureSufficientBalance : Nat → W → Except JsError Unit × W
  createAtomFromThing :
    ThingAtomData → Nat → W → Except JsError AtomCreateResult × W
  waitForConfirmation :
    String → W → Except JsError TransactionResult × W
  calculateTripleId : String → String → String → String
  findTripleIds : String → List (String × String × String) → W →
    Except JsError (List FoundRecord) × W
  createTripleStatement :
    List String × List String × List String × List Nat → Nat → W →
    Except JsError TxSubmitResult × W
  deposit : String × String × Nat × Nat × Nat → Nat → W →
    Except JsError TxSubmitResult × W

/-- JS truthiness of a possibly-absent `term_id` string: present and
non-empty. -/
def truthyId : Option String → Option String
  | some s => if s = "" then none else some s
  | none => none

/-- The id the `try { findAtomIds ... } catch { ... }` block of
atoms.ts settles on: the first record's truthy `term_id`, `none` on an
empty result, and `none` when the lookup itself threw (the catch arm logs
a warning and falls through to creation). -/
def foundAtomId : Except JsError (List FoundRecord) → Option String
  | .ok (r :: _) => truthyId r.term_id
  | .ok [] => none
  | .error _ => none

/-- The continuation of `ensureProjectAtom` / `ensureContributorAtom`
after the existence lookup has been resolved to `found` (atoms.ts: the
found early-return, then the `try { balance; create; confirm }` block
whose catch wraps any error as `TransactionFailedError`). `wrapMsg` is
the variant's wrap-message prefix. -/
def ensureAtomRest (gw : Gateway W) (wrapMsg : String)
    (atomData : ThingAtomData) (found : Option String) (w : W) :
    Except JsError AtomCreationResult × W :=
  match found with
  | some atomId =>
    (.ok ⟨atomId, bigIntOfHex atomId, "0x0", 0, true⟩, w)
  | none =>
    let minDeposit := gw.minDeposit
    match gw.ensureSufficientBalance minDeposit w with
    | (.error e, w) =>
      (.error (.transactionFailed (wrapMsg ++ ": " ++ e.message) none), w)
    | (.ok _, w) =>
      match gw.createAtomFromThing atomData minDeposit w with
      | (.error e, w) =>
        (.error (.transactionFailed (wrapMsg ++ ": " ++ e.message) none), w)
      | (.ok result, w) =>
        match gw.waitForConfirmation result.transactionHash w with
        | (.error e, w) =>
          (.error (.transactionFailed (wrapMsg ++ ": " ++ e.message) none), w)
        | (.ok txResult, w) =>
          (.ok ⟨result.termId, bigIntOfHex result.termId,
                txResult.hash, minDeposit, false⟩, w)

/-- The body passed to `withRetry` by the two atom ensurers: look the url
key up, then continue with `ensureAtomRest`. -/
def ensureAtomBody (gw : Gateway W) (wrapMsg : String)
    (atomData : ThingAtomData) (w : W) :
    Except JsError AtomCreationResult × W :=
  match gw.findAtomIds [atomData.url] w with
  | (fr, w) => ensureAtomRest gw wrapMsg atomData (foundAtomId fr) w

/-- `ensureProjectAtom` of src/intuition/atoms.ts. -/
def ensureProjectAtom (gw : Gateway W) (atomData : ThingAtomData)
    (retryOptions : RetryOptions) (w : W) : RetryOut W AtomCreationResult :=
  withRetry (ensureAtomBody gw "Failed to create project atom" atomData)
    retryOptions w

/-- `ensureContributorAtom` of src/intuition/atoms.ts: identical control
flow, differing only in log/wrap messages. -/
def ensureContributorAtom (gw : Gateway W) (atomData : ThingAtomData)
    (retryOptions : RetryOptions) (w : W) : RetryOut W AtomCreationResult :=
  withRetry (ensureAtomBody gw "Failed to create contributor atom" atomData)
    retryOptions w

/-- WAS_ASSOCIATED_WITH_PREDICATE_ID of src/config/constants.ts. -/
def WAS_ASSOCIATED_WITH_PREDICATE_ID : String :=
  "0x4ca4033b5e5e3e274225a9145170a0183f0a9ebe6ba7c4b28cce5e8cf536674c"

/-- The `tripleExists` flag the `try { findTripleIds ... } catch` block of
triples.ts settles on (a thrown lookup logs a warning and leaves the flag
false). -/
def tripleExistsOf : Except JsError (List FoundRecord) → Bool
  | .ok (r :: _) => (truthyId r.term_id).isSome
  | .ok [] => false
  | .error _ => false

/-- The continuation of `ensureAttestationTriple` after the existence
lookup: the funds pre-check (triples.ts lines 63-64, outside every `try`,
so its error propagates unwrapped), then either the deposit branch or the
create branch, each wrapping its own errors as `TransactionFailedError`. -/
def ensureTripleRest (gw : Gateway W)
    (contributorAtomId projectAtomId tripleId : String)
    (tripleExists : Bool) (w : W) :
    Except JsError TripleCreationResult × W :=
  let minDeposit := gw.minDeposit
  match gw.ensureSufficientBalance minDeposit w with
  | (.error e, w) => (.error e, w)
  | (.ok _, w) =>
    if tripleExists then
      match gw.deposit (gw.address, tripleId, 0, minDeposit, 0) minDeposit w with
      | (.error e, w) =>
        (.error (.transactionFailed
          ("Failed to deposit to triple: " ++ e.message) none), w)
      | (.ok result, w) =>
        match gw.waitForConfirmation result.transactionHash w with
        | (.error e, w) =>
          (.error (.transactionFailed
            ("Failed to deposit to triple: " ++ e.message) none), w)
        | (.ok txResult, w) =>
          (.ok ⟨tripleId, bigIntOfHex tripleId, txResult.hash,
                minDeposit, true⟩, w)
    else
      match gw.createTripleStatement
          ([contributorAtomId], [WAS_ASSOCIATED_WITH_PREDICATE_ID],
           [projectAtomId], [minDeposit]) minDeposit w with
      | (.error e, w) =>
        (.error (.transactionFailed
          ("Failed to create triple: " ++ e.message) none), w)
      | (.ok result, w) =>
        match gw.waitForConfirmation result.transactionHash w with
        | (.error e, w) =>
          (.error (.transactionFailed
            ("Failed to create triple: " ++ e.message) none), w)
        | (.ok txResult, w) =>
          (.ok ⟨tripleId, bigIntOfHex tripleId, txResult.hash,
                minDeposit, false⟩, w)

/-- The body passed to `withRetry` by `ensureAttestationTriple`:
derive the triple id, look the ordered triple up, continue. -/
def ensureTripleBody (gw : Gateway W)
    (contributorAtomId projectAtomId : String) (w : W) :
    Except JsError TripleCreationResult × W :=
  let tripleId := gw.calculateTripleId contributorAtomId
    WAS_ASSOCIATED_WITH_PREDICATE_ID projectAtomId
  match gw.findTripleIds gw.address
      [(contributorAtomId, WAS_ASSOCIATED_WITH_PREDICATE_ID, projectAtomId)] w with
  | (fr, w) =>
    ensureTripleRest gw contributorAtomId projectAtomId tripleId
      (tripleExistsOf fr) w

/-- `ensureAttestationTriple` of src/intuition/triples.ts. -/
def ensureAttestationTriple (gw : Gateway W)
    (contributorAtomId projectAtomId : String)
    (retryOptions : RetryOptions) (w : W) : RetryOut W TripleCreationResult :=
  withRetry (ensureTripleBody gw contributorAtomId projectAtomId)
    retryOptions w

/-- RepositoryData (src/github/types.ts). -/
structure RepositoryData where
  name : String
  fullName : String
  description : String
  url : String
  owner : String
  deriving DecidableEq, Repr

/-- ContributorData (src/github/types.ts). -/
structure ContributorData where
  username : Option String := none
  name : String
  email : String
  profileUrl : String
  avatarUrl : Option String := none
  commitCount : Nat
  deriving DecidableEq, Repr

/-- ContributorProcessingResult (src/services/attestation.ts). -/
structure ContributorProcessingResult where
  contributor : ContributorData
  atomResult : Option AtomCreationResult := none
  tripleResult : Option TripleCreationResult := none
  success : Bool
  error : Option String := none
  deriving DecidableEq, Repr

/-- AttestationSummary (src/services/attestation.ts). -/
structure AttestationSummary where
  projectAtomId : String
  projectAtomTxHash : Option String := none
  contributorCount : Nat
  attestationsCreated : Nat
  attestationsUpdated : Nat
  transactionHashes : List String
  totalCost : Nat
  results : List ContributorProcessingResult
  deriving DecidableEq, Repr

/-- The failure-mode union type `'fail' | 'warn'`. -/
inductive FailureMode where
  | fail
  | warn
  deriving DecidableEq, Repr

/-- JS `a || b` on an optional string `a`: `b` when `a` is absent or
empty (falsy). -/
def orElseStr : Option String → String → String
  | some s, d => if s = "" then d else s
  | none, d => d

/-- `error instanceof Error ? error.message : String(error)` applied to a
value thrown out of `withRetry` (which is `undefined` only when
maxAttempts = 0). -/
def errMessageOpt : Option JsError → String
  | some e => e.message
  | none => "undefined"

/-- The catch arm of `processContributor` (attestation.ts lines 221-239):
under `'fail'` rethrow the original error, under `'warn'` return a failed
outcome carrying only the error message (no atom or triple result). -/
def contributorFailure (contributor : ContributorData)
    (failureMode : FailureMode) (e : Option JsError) :
    Except (Option JsError) ContributorProcessingResult :=
  match failureMode with
  | .fail => .error e
  | .warn =>
    .ok { contributor := contributor, success := false,
          error := some (errMessageOpt e) }

/-- The ThingAtomData object literal `processContributor` builds for a
contributor (attestation.ts lines 180-189):
`description: Contributor: ${contributor.username || contributor.email}`. -/
def contributorAtomData (contributor : ContributorData) : ThingAtomData :=
  { name := contributor.name,
    description :=
      "Contributor: " ++ orElseStr contributor.username contributor.email,
    url := contributor.profileUrl,
    image := contributor.avatarUrl }

/-- `processContributor` of src/services/attestation.ts: ensure the
contributor atom, then the attestation triple; the surrounding `try`
covers both calls. -/
def processContributor (gw : Gateway W) (contributor : ContributorData)
    (projectAtomId : String) (failureMode : FailureMode)
    (retryOptions : RetryOptions) (w : W) :
    Except (Option JsError) ContributorProcessingResult × W :=
  let atomOut := ensureContributorAtom gw (contributorAtomData contributor)
    retryOptions w
  match atomOut.result with
  | .error e => (contributorFailure contributor failureMode e, atomOut.world)
  | .ok atomResult =>
    let tripleOut := ensureAttestationTriple gw atomResult.atomId
      projectAtomId retryOptions atomOut.world
    match tripleOut.result with
    | .error e =>
      (contributorFailure contributor failureMode e, tripleOut.world)
    | .ok tripleResult =>
      (.ok { contributor := contributor, atomResult := some atomResult,
             tripleResult := some tripleResult, success := true },
       tripleOut.world)

/-- The transaction hashes a successful contributor result pushes into
the summary (attestation.ts lines 119-128): the atom's and the triple's
hash, each only when present, truthy, and not the sentinel `'0x0'`. -/
def successHashes (result : ContributorProcessingResult) : List String :=
  (match result.atomResult with
   | some ar =>
     if ar.txHash ≠ "" ∧ ar.txHash ≠ "0x0" then [ar.txHash] else []
   | none => [])
  ++ (match result.tripleResult with
      | some tr =>
        if tr.txHash ≠ "" ∧ tr.txHash ≠ "0x0" then [tr.txHash] else []
      | none => [])

/-- The cost a contributor result contributes (attestation.ts lines
131-132): `(atomResult?.cost || 0n) + (tripleResult?.cost || 0n)`. -/
def recordedCost (result : ContributorProcessingResult) : Nat :=
  (result.atomResult.map AtomCreationResult.cost).getD 0
  + (result.tripleResult.map TripleCreationResult.cost).getD 0

/-- The per-contributor summary update of `processAttestations`
(attestation.ts lines 116-140): push the result; when it succeeded, push
its non-sentinel (and truthy) transaction hashes, add its costs
(`?. ... || 0n`), and bump the updated/created tally according to the
triple outcome's `existed` flag. -/
def summaryAddResult (summary : AttestationSummary)
    (result : ContributorProcessingResult) : AttestationSummary :=
  let summary := { summary with results := summary.results ++ [result] }
  if result.success then
    let summary := { summary with
      transactionHashes := summary.transactionHashes ++ successHashes result }
    let summary := { summary with
      totalCost := summary.totalCost + recordedCost result }
    match result.tripleResult with
    | some tr =>
      if tr.existed then
        { summary with attestationsUpdated := summary.attestationsUpdated + 1 }
      else
        { summary with attestationsCreated := summary.attestationsCreated + 1 }
    | none =>
      { summary with attestationsCreated := summary.attestationsCreated + 1 }
  else
    summary

/-- The `for (const contributor of contributors)` loop of
`processAttestations`; a propagated per-contributor error aborts it. -/
def processLoop (gw : Gateway W) (projectAtomId : String)
    (failureMode : FailureMode) (retryOptions : RetryOptions) :
    List ContributorData → AttestationSummary → W →
    Except (Option JsError) AttestationSummary × W
  | [], summary, w => (.ok summary, w)
  | contributor :: rest, summary, w =>
    match processContributor gw contributor projectAtomId failureMode
        retryOptions w with
    | (.error e, w) => (.error e, w)
    | (.ok result, w) =>
      processLoop gw projectAtomId failureMode retryOptions rest
        (summaryAddResult summary result) w

/-- The outer catch of `processAttestations` (attestation.ts lines
144-152): an `ActionError` is rethrown unchanged, anything else is
wrapped in a non-retryable base `ActionError`. -/
def wrapOrchestratorError : Option JsError → JsError
  | some e =>
    if e.isActionError then e
    else .actionBase ("Failed to process attestations: " ++ e.message) false
  | none => .actionBase "Failed to process attestations: undefined" false

/-- The ThingAtomData object literal `processAttestations` builds for the
project (attestation.ts lines 75-83). -/
def repositoryAtomData (repository : RepositoryData) : ThingAtomData :=
  { name := repository.fullName, description := repository.description,
    url := repository.url }

/-- `processAttestations` of src/services/attestation.ts. -/
def processAttestations (gw : Gateway W) (repository : RepositoryData)
    (contributors : List ContributorData) (failureMode : FailureMode)
    (retryOptions : RetryOptions) (w : W) :
    Except JsError AttestationSummary × W :=
  let summary : AttestationSummary :=
    { projectAtomId := "0x0", contributorCount := contributors.length,
      attestationsCreated := 0, attestationsUpdated := 0,
      transactionHashes := [], totalCost := 0, results := [] }
  let projOut := ensureProjectAtom gw (repositoryAtomData repository)
    retryOptions w
  match projOut.result with
  | .error e => (.error (wrapOrchestratorError e), projOut.world)
  | .ok projectAtomResult =>
    let summary := { summary with projectAtomId := projectAtomResult.atomId }
    let summary :=
      if projectAtomResult.txHash ≠ "0x0" then
        { summary with
          transactionHashes :=
            summary.transactionHashes ++ [projectAtomResult.txHash],
          projectAtomTxHash := some projectAtomResult.txHash }
      else summary
    let summary :=
      { summary with totalCost := summary.totalCost + projectAtomResult.cost }
    match processLoop gw projectAtomResult.atomId failureMode retryOptions
        contributors summary projOut.world with
    | (.error e, w) => (.error (wrapOrchestratorError e), w)
    | (.ok summary, w) => (.ok summary, w)

/-- Atom id a reference ledger assigns to a url key. -/
def atomIdOf (url : String) : String := "atom-" ++ url

/-- Transaction hash of the n-th submitted transaction. -/
def txHashOf (n : Nat) : String := "0xtx" ++ toString n

/-- Deterministic triple id of an ordered (subject, predicate, object). -/
def tripleIdOf (s p o : String) : String :=
  "triple-" ++ s ++ "-" ++ p ++ "-" ++ o

/-- Modelled from the spec: the state of the external ledger behind
LedgerGateway (spec §4.2, §6) — the only persistent state of the system.
`atomKeys` maps url keys to atom ids (the ledger's canonicalization key
for subjects, spec §3), `tripleKeys` maps triple ids to themselves,
`balance` is the funding identity's balance, `txCounter` numbers
submitted transactions. -/
structure LedgerState where
  atomKeys : List (String × String)
  tripleKeys : List (String × String)
  balance : Nat
  txCounter : Nat
  deriving DecidableEq, Repr

/-- Modelled from the spec: a reference implementation of the external
LedgerGateway interface (spec §4.2), missing from src/ (it lives in the
`@0xintuition/sdk` and the wallet client).  Lookups find resources by
their identity key; `createSubject`/`createRelationship` register the
key, debit the stake and hand back a fresh transaction hash;
confirmation always succeeds; the funds check fails with
`InsufficientFunds` exactly when the balance is short. -/
def mkLedgerGateway (minDeposit : Nat) (address : String) :
    Gateway LedgerState where
  minDeposit := minDeposit
  address := address
  findAtomIds := fun urls w =>
    match urls with
    | url :: _ =>
      match w.atomKeys.lookup url with
      | some id => (.ok [⟨some id⟩], w)
      | none => (.ok [], w)
    | [] => (.ok [], w)
  ensureSufficientBalance := fun required w =>
    if w.balance < required then
      (.error (.insufficientFunds
        ("Insufficient balance. Required: " ++ toString required
          ++ " wei, Available: " ++ toString w.balance ++ " wei")), w)
    else (.ok (), w)
  createAtomFromThing := fun atomData dep w =>
    (.ok ⟨txHashOf w.txCounter, atomIdOf atomData.url⟩,
     { w with
        atomKeys := (atomData.url, atomIdOf atomData.url) :: w.atomKeys,
        balance := w.balance - dep,
        txCounter := w.txCounter + 1 })
  waitForConfirmation := fun txHash w => (.ok ⟨txHash, true, some 1⟩, w)
  calculateTripleId := tripleIdOf
  findTripleIds := fun _addr triples w =>
    match triples with
    | (s, p, o) :: _ =>
      match w.tripleKeys.lookup (tripleIdOf s p o) with
      | some id => (.ok [⟨some id⟩], w)
      | none => (.ok [], w)
    | [] => (.ok [], w)
  createTripleStatement := fun args dep w =>
    match args with
    | (s :: _, p :: _, o :: _, _) =>
      (.ok ⟨txHashOf w.txCounter⟩,
       { w with
          tripleKeys :=
            (tripleIdOf s p o, tripleIdOf s p o) :: w.tripleKeys,
          balance := w.balance - dep,
          txCounter := w.txCounter + 1 })
    | _ => (.error (.generic "malformed triple arguments"), w)
  deposit := fun _args value w =>
    (.ok ⟨txHashOf w.txCounter⟩,
     { w with balance := w.balance - value, txCounter := w.txCounter + 1 })

/-- A fresh ledger holding no resources. -/
def initLedger (balance : Nat) : LedgerState := ⟨[], [], balance, 0⟩

/-- A reference ledger whose create-subject transaction always fails at
the RPC layer (used to exercise the fatal-error wrapping path). -/
def brokenCreateGateway : Gateway LedgerState :=
  { mkLedgerGateway 1 "0xfunder" with
    createAtomFromThing := fun _ _ w => (.error (.network "rpc down"), w) }

/-- A reference ledger whose existence lookups always fail at the remote
API (used to exercise the lookup-degradation path). -/
def downLedgerGateway : Gateway LedgerState :=
  { mkLedgerGateway 1 "0xfunder" with
    findAtomIds := fun _ w => (.error (.network "graphql down"), w),
    findTripleIds := fun _ _ w => (.error (.network "graphql down"), w) }

/-! ### Step lemmas for the retry loop -/

theorem withRetryGo_ok {W : Type u} {α : Type v}
    (fn : W → Except JsError α × W) (opts : RetryOptions)
    (attempt rem : Nat) (w w' : W) (v : α) (h : fn w = (.ok v, w')) :
    withRetryGo fn opts attempt (rem + 1) w = ⟨.ok v, w', 1, []⟩ := by
  simp [withRetryGo, h]

theorem withRetryGo_fatal {W : Type u} {α : Type v}
    (fn : W → Except JsError α × W) (opts : RetryOptions)
    (attempt rem : Nat) (w w' : W) (e : JsError)
    (h : fn w = (.error e, w')) (hf : e.isFatal = true) :
    withRetryGo fn opts attempt (rem + 1) w = ⟨.error (some e), w', 1, []⟩ := by
  simp [withRetryGo, h, hf]

theorem withRetryGo_last {W : Type u} {α : Type v}
    (fn : W → Except JsError α × W) (opts : RetryOptions)
    (attempt : Nat) (w w' : W) (e : JsError) (h : fn w = (.error e, w')) :
    withRetryGo fn opts attempt 1 w = ⟨.error (some e), w', 1, []⟩ := by
  by_cases hf : e.isFatal <;> simp [withRetryGo, h, hf]

theorem withRetryGo_retry {W : Type u} {α : Type v}
    (fn : W → Except JsError α × W) (opts : RetryOptions)
    (attempt rem : Nat) (w w' : W) (e : JsError)
    (h : fn w = (.error e, w')) (hf : e.isFatal = false) :
    withRetryGo fn opts attempt (rem + 2) w =
      (fun out => RetryOut.mk out.result out.world (out.calls + 1)
          (backoffDelay opts attempt :: out.delays))
        (withRetryGo fn opts (attempt + 1) (rem + 1) w') := by
  simp [withRetryGo, h, hf]

/-- Every successful value of the retry loop was produced by some
invocation of the wrapped operation. -/
theorem withRetryGo_ok_src {W : Type u} {α : Type v}
    (fn : W → Except JsError α × W) (opts : RetryOptions)
    (rem : Nat) : ∀ (a : Nat) (w : W) (v : α),
      (withRetryGo fn opts a rem w).result = .ok v →
      ∃ w1 w2, fn w1 = (.ok v, w2) := by
  induction rem with
  | zero =>
    intro a w v h
    simp [withRetryGo] at h
  | succ n ih =>
    intro a w v h
    rcases hfn : fn w with ⟨res, w'⟩
    cases res with
    | ok u =>
      rw [withRetryGo_ok fn opts a n w w' u hfn] at h
      simp at h
      exact ⟨w, w', by rw [hfn, h]⟩
    | error e =>
      by_cases hf : e.isFatal
      · rw [withRetryGo_fatal fn opts a n w w' e hfn hf] at h
        simp at h
      · rcases n with _ | m
        · rw [withRetryGo_last fn opts a w w' e hfn] at h
          simp at h
        · rw [withRetryGo_retry fn opts a m w w' e hfn
            (Bool.not_eq_true _ ▸ hf)] at h
          exact ih (a + 1) w' v h

/-- Every error surfaced by the retry loop was raised by some invocation
of the wrapped operation (the loop never synthesizes an error). -/
theorem withRetryGo_err_src {W : Type u} {α : Type v}
    (fn : W → Except JsError α × W) (opts : RetryOptions)
    (rem : Nat) : ∀ (a : Nat) (w : W) (e : JsError),
      (withRetryGo fn opts a rem w).result = .error (some e) →
      ∃ w1 w2, fn w1 = (.error e, w2) := by
  induction rem with
  | zero =>
    intro a w e h
    simp [withRetryGo] at h
  | succ n ih =>
    intro a w e h
    rcases hfn : fn w with ⟨res, w'⟩
    cases res with
    | ok u =>
      rw [withRetryGo_ok fn opts a n w w' u hfn] at h
      simp at h
    | error e' =>
      by_cases hf : e'.isFatal
      · rw [withRetryGo_fatal fn opts a n w w' e' hfn hf] at h
        simp at h
        exact ⟨w, w', by rw [hfn, h]⟩
      · rcases n with _ | m
        · rw [withRetryGo_last fn opts a w w' e' hfn] at h
          simp at h
          exact ⟨w, w', by rw [hfn, h]⟩
        · rw [withRetryGo_retry fn opts a m w w' e' hfn
            (Bool.not_eq_true _ ▸ hf)] at h
          exact ih (a + 1) w' e h

/-- First attempt succeeds: one call, no delays, no warnings. -/
theorem withRetry_first_ok {W : Type u} {α : Type v}
    (fn : W → Except JsError α × W) (opts : RetryOptions)
    (w w' : W) (v : α) (h1 : 1 ≤ opts.maxAttempts)
    (h : fn w = (.ok v, w')) :
    withRetry fn opts w = ⟨.ok v, w', 1, []⟩ := by
  unfold withRetry
  rw [(Nat.succ_pred_eq_of_pos h1).symm]
  exact withRetryGo_ok fn opts 1 _ w w' v h

/-- First attempt raises a fatal (classified non-retryable) error: one
call, no delays, the error is rethrown. -/
theorem withRetry_first_fatal {W : Type u} {α : Type v}
    (fn : W → Except JsError α × W) (opts : RetryOptions)
    (w w' : W) (e : JsError) (h1 : 1 ≤ opts.maxAttempts)
    (h : fn w = (.error e, w')) (hf : e.isFatal = true) :
    withRetry fn opts w = ⟨.error (some e), w', 1, []⟩ := by
  unfold withRetry
  rw [(Nat.succ_pred_eq_of_pos h1).symm]
  exact withRetryGo_fatal fn opts 1 _ w w' e h hf

/-- Number of successful contributor results in a list. -/
def countSuccess (rs : List ContributorProcessingResult) : Nat :=
  (rs.filter (fun r => r.success)).length

/-- The (cost, existedBefore) pairs of the ResourceOutcomes recorded in
one contributor result. -/
def resultOutcomes (r : ContributorProcessingResult) : List (Nat × Bool) :=
  (match r.atomResult with
   | some ar => [(ar.cost, ar.existed)]
   | none => [])
  ++ (match r.tripleResult with
      | some tr => [(tr.cost, tr.existed)]
      | none => [])

/-- All ResourceOutcomes of a run: the project outcome followed by the
outcomes recorded in the per-contributor results. -/
def summaryOutcomes (pr : AtomCreationResult) (s : AttestationSummary) :
    List (Nat × Bool) :=
  (pr.cost, pr.existed) :: (s.results.map resultOutcomes).flatten

/-- Sum of cost over all given ResourceOutcomes. -/
def sumCostAll (outs : List (Nat × Bool)) : Nat :=
  (outs.map Prod.fst).sum

/-- From the spec's words (§3, C4): the sum of cost over exactly the
ResourceOutcomes with existedBefore = false. -/
def sumCostNonExisted (outs : List (Nat × Bool)) : Nat :=
  ((outs.filter (fun o => !o.2)).map Prod.fst).sum

/-- The summary of a run, when one was produced ("no summary" on an
aborted run). -/
def runSummary (x : Except JsError AttestationSummary) :
    Option AttestationSummary :=
  match x with
  | .ok s => some s
  | .error _ => none

/-- A concrete repository for the scenario runs. -/
def sampleRepository : RepositoryData :=
  ⟨"repo", "octo/repo", "a repo", "https://example.com/repo", "octo"⟩

/-- Concrete contributor A for the scenario runs. -/
def contributorA : ContributorData :=
  ⟨some "alice", "Alice", "alice@example.com",
   "https://example.com/alice", none, 3⟩

/-- Concrete contributor B for the scenario runs. -/
def contributorB : ContributorData :=
  ⟨some "bob", "Bob", "bob@example.com", "https://example.com/bob", none, 2⟩

/-- The project atom outcome of the first scenario run. -/
def prA : AtomCreationResult :=
  ⟨atomIdOf "https://example.com/repo",
   bigIntOfHex (atomIdOf "https://example.com/repo"), txHashOf 0, 1, false⟩

def aliceAtom : AtomCreationResult :=
  ⟨atomIdOf "https://example.com/alice",
   bigIntOfHex (atomIdOf "https://example.com/alice"), txHashOf 1, 1, false⟩

def aliceTripleId : String :=
  tripleIdOf (atomIdOf "https://example.com/alice")
    WAS_ASSOCIATED_WITH_PREDICATE_ID (atomIdOf "https://example.com/repo")

def aliceTriple : TripleCreationResult :=
  ⟨aliceTripleId, bigIntOfHex aliceTripleId, txHashOf 2, 1, false⟩

def firstRunSummary : AttestationSummary :=
  { projectAtomId := atomIdOf "https://example.com/repo",
    projectAtomTxHash := some (txHashOf 0),
    contributorCount := 1, attestationsCreated := 1, attestationsUpdated := 0,
    transactionHashes := [txHashOf 0, txHashOf 1, txHashOf 2],
    totalCost := 3,
    results := [⟨contributorA, some aliceAtom, some aliceTriple, true, none⟩] }

def firstRunLedger : LedgerState :=
  ⟨[("https://example.com/alice", atomIdOf "https://example.com/alice"),
    ("https://example.com/repo", atomIdOf "https://example.com/repo")],
   [(aliceTripleId, aliceTripleId)], 7, 3⟩

/-! ### Basic facts about the reference ledger's identifiers -/

theorem atomIdOf_ne_empty (url : String) : atomIdOf url ≠ "" := by
  intro h
  have h' := congrArg String.length h
  rw [atomIdOf, String.length_append] at h'
  have h5 : ("atom-").length = 5 := rfl
  have h0 : ("").length = 0 := rfl
  rw [h5, h0] at h'
  omega

theorem tripleIdOf_ne_empty (s p o : String) : tripleIdOf s p o ≠ "" := by
  intro h
  have h' := congrArg String.length h
  simp only [tripleIdOf, String.length_append] at h'
  have h7 : ("triple-").length = 7 := rfl
  have hd : ("-").length = 1 := rfl
  have h0 : ("").length = 0 := rfl
  rw [h7, hd, h0] at h'
  omega

/-- A successful atom-ensure body outcome that reports `existed = true`
comes from the found branch, whose literal carries cost 0 and the
sentinel hash. -/
theorem ensureAtomRest_ok_existed {W : Type} (gw : Gateway W) (msg : String)
    (atomData : ThingAtomData) (found : Option String) (w w' : W)
    (r : AtomCreationResult)
    (h : ensureAtomRest gw msg atomData found w = (.ok r, w'))
    (he : r.existed = true) : r.cost = 0 ∧ r.txHash = "0x0" := by
  cases found with
  | some id =>
    simp [ensureAtomRest] at h
    rw [← h.1]
    exact ⟨rfl, rfl⟩
  | none =>
    unfold ensureAtomRest at h
    dsimp only at h
    rcases hb : gw.ensureSufficientBalance gw.minDeposit w with ⟨bres, w2⟩
    rw [hb] at h
    cases bres with
    | error e => simp at h
    | ok u =>
      dsimp only at h
      rcases hc : gw.createAtomFromThing atomData gw.minDeposit w2 with ⟨cres, w3⟩
      rw [hc] at h
      cases cres with
      | error e => simp at h
      | ok cr =>
        dsimp only at h
        rcases ht : gw.waitForConfirmation cr.transactionHash w3 with ⟨tres, w4⟩
        rw [ht] at h
        cases tres with
        | error e => simp at h
        | ok tx =>
          simp at h
          rw [← h.1] at he
          simp at he

theorem ensureAtomBody_ok_existed {W : Type} (gw : Gateway W) (msg : String)
    (atomData : ThingAtomData) (w w' : W) (r : AtomCreationResult)
    (h : ensureAtomBody gw msg atomData w = (.ok r, w'))
    (he : r.existed = true) : r.cost = 0 ∧ r.txHash = "0x0" := by
  unfold ensureAtomBody at h
  rcases hf : gw.findAtomIds [atomData.url] w with ⟨fr, w1⟩
  rw [hf] at h
  exact ensureAtomRest_ok_existed gw msg atomData (foundAtomId fr) w1 w' r h he

/-- Every error escaping the atom-ensure body is a wrapped
`TransactionFailedError` (found branch returns, create branch wraps). -/
theorem ensureAtomRest_err {W : Type} (gw : Gateway W) (msg : String)
    (atomData : ThingAtomData) (found : Option String) (w w' : W)
    (e : JsError)
    (h : ensureAtomRest gw msg atomData found w = (.error e, w')) :
    ∃ m, e = .transactionFailed m none := by
  cases found with
  | some id => simp [ensureAtomRest] at h
  | none =>
    unfold ensureAtomRest at h
    dsimp only at h
    rcases hb : gw.ensureSufficientBalance gw.minDeposit w with ⟨bres, w2⟩
    rw [hb] at h
    cases bres with
    | error e' =>
      simp at h
      exact ⟨_, h.1.symm⟩
    | ok u =>
      dsimp only at h
      rcases hc : gw.createAtomFromThing atomData gw.minDeposit w2 with ⟨cres, w3⟩
      rw [hc] at h
      cases cres with
      | error e' =>
        simp at h
        exact ⟨_, h.1.symm⟩
      | ok cr =>
        dsimp only at h
        rcases ht : gw.waitForConfirmation cr.transactionHash w3 with ⟨tres, w4⟩
        rw [ht] at h
        cases tres with
        | error e' =>
          simp at h
          exact ⟨_, h.1.symm⟩
        | ok tx => simp at h

theorem ensureAtomBody_err {W : Type} (gw : Gateway W) (msg : String)
    (atomData : ThingAtomData) (w w' : W) (e : JsError)
    (h : ensureAtomBody gw msg atomData w = (.error e, w')) :
    ∃ m, e = .transactionFailed m none := by
  unfold ensureAtomBody at h
  rcases hf : gw.findAtomIds [atomData.url] w with ⟨fr, w1⟩
  rw [hf] at h
  exact ensureAtomRest_err gw msg atomData (foundAtomId fr) w1 w' e h

theorem ensureTripleRest_err {W : Type} (gw : Gateway W)
    (contributorAtomId projectAtomId tripleId : String)
    (tripleExists : Bool) (w w' : W) (e : JsError)
    (h : ensureTripleRest gw contributorAtomId projectAtomId tripleId
          tripleExists w = (.error e, w')) :
    (∃ m, e = .transactionFailed m none) ∨
    (∃ w1 w2, gw.ensureSufficientBalance gw.minDeposit w1 = (.error e, w2)) := by
  unfold ensureTripleRest at h
  dsimp only at h
  rcases hb : gw.ensureSufficientBalance gw.minDeposit w with ⟨bres, w2⟩
  rw [hb] at h
  cases bres with
  | error e' =>
    simp at h
    exact Or.inr ⟨w, w2, by rw [hb, h.1]⟩
  | ok u =>
    dsimp only at h
    cases tripleExists with
    | true =>
      rw [if_pos rfl] at h
      rcases hd : gw.deposit (gw.address, tripleId, 0, gw.minDeposit, 0)
          gw.minDeposit w2 with ⟨dres, w3⟩
      rw [hd] at h
      cases dres with
      | error e' =>
        simp at h
        exact Or.inl ⟨_, h.1.symm⟩
      | ok dr =>
        dsimp only at h
        rcases ht : gw.waitForConfirmation dr.transactionHash w3 with ⟨tres, w4⟩
        rw [ht] at h
        cases tres with
        | error e' =>
          simp at h
          exact Or.inl ⟨_, h.1.symm⟩
        | ok tx => simp at h
    | false =>
      rw [if_neg (by simp)] at h
      rcases hc : gw.createTripleStatement
          ([contributorAtomId], [WAS_ASSOCIATED_WITH_PREDICATE_ID],
           [projectAtomId], [gw.minDeposit]) gw.minDeposit w2 with ⟨cres, w3⟩
      rw [hc] at h
      cases cres with
      | error e' =>
        simp at h
        exact Or.inl ⟨_, h.1.symm⟩
      | ok cr =>
        dsimp only at h
        rcases ht : gw.waitForConfirmation cr.transactionHash w3 with ⟨tres, w4⟩
        rw [ht] at h
        cases tres with
        | error e' =>
          simp at h
          exact Or.inl ⟨_, h.1.symm⟩
        | ok tx => simp at h

theorem ensureTripleBody_err {W : Type} (gw : Gateway W)
    (contributorAtomId projectAtomId : String) (w w' : W) (e : JsError)
    (h : ensureTripleBody gw contributorAtomId projectAtomId w
          = (.error e, w')) :
    (∃ m, e = .transactionFailed m none) ∨
    (∃ w1 w2, gw.ensureSufficientBalance gw.minDeposit w1 = (.error e, w2)) := by
  unfold ensureTripleBody at h
  rcases hf : gw.findTripleIds gw.address
      [(contributorAtomId, WAS_ASSOCIATED_WITH_PREDICATE_ID, projectAtomId)] w
    with ⟨fr, w1⟩
  rw [hf] at h
  exact ensureTripleRest_err gw contributorAtomId projectAtomId _
    (tripleExistsOf fr) w1 w' e h

theorem summaryAddResult_failure (s : AttestationSummary)
    (r : ContributorProcessingResult) (h : r.success = false) :
    summaryAddResult s r = { s with results := s.results ++ [r] } := by
  simp [summaryAddResult, h]

theorem summaryAddResult_results (s : AttestationSummary)
    (r : ContributorProcessingResult) :
    (summaryAddResult s r).results = s.results ++ [r] := by
  unfold summaryAddResult
  repeat' split
  all_goals rfl

theorem summaryAddResult_counts (s : AttestationSummary)
    (r : ContributorProcessingResult) :
    (summaryAddResult s r).attestationsCreated
      + (summaryAddResult s r).attestationsUpdated
      = s.attestationsCreated + s.attestationsUpdated
        + (if r.success then 1 else 0) := by
  unfold summaryAddResult
  repeat' split
  all_goals simp
  all_goals omega

theorem summaryAddResult_totalCost (s : AttestationSummary)
    (r : ContributorProcessingResult) :
    (summaryAddResult s r).totalCost
      = s.totalCost + (if r.success then recordedCost r else 0) := by
  unfold summaryAddResult
  repeat' split
  all_goals simp

theorem summaryAddResult_hashes (s : AttestationSummary)
    (r : ContributorProcessingResult) :
    (summaryAddResult s r).transactionHashes
      = s.transactionHashes ++ (if r.success then successHashes r else []) := by
  unfold summaryAddResult
  repeat' split
  all_goals simp

theorem not_mem_successHashes (r : ContributorProcessingResult) :
    "0x0" ∉ successHashes r := by
  unfold successHashes
  intro hmem
  rcases List.mem_append.mp hmem with h | h <;>
    (repeat' split at h) <;> simp_all

theorem processContributor_ok_shape {W : Type} (gw : Gateway W)
    (c : ContributorData) (pid : String) (fm : FailureMode)
    (opts : RetryOptions) (w w1 : W) (res : ContributorProcessingResult)
    (h : processContributor gw c pid fm opts w = (.ok res, w1)) :
    res.contributor = c ∧
    (res.success = false → res.atomResult = none ∧ res.tripleResult = none) := by
  unfold processContributor at h
  dsimp only at h
  rcases ha : (ensureContributorAtom gw (contributorAtomData c) opts w).result
    with e | ar
  · rw [ha] at h
    cases fm with
    | fail => simp [contributorFailure] at h
    | warn =>
      simp [contributorFailure] at h
      rw [← h.1]
      exact ⟨rfl, fun _ => ⟨rfl, rfl⟩⟩
  · rw [ha] at h
    dsimp only at h
    rcases ht : (ensureAttestationTriple gw ar.atomId pid opts
        (ensureContributorAtom gw (contributorAtomData c) opts w).world).result
      with e | tr
    · rw [ht] at h
      cases fm with
      | fail => simp [contributorFailure] at h
      | warn =>
        simp [contributorFailure] at h
        rw [← h.1]
        exact ⟨rfl, fun _ => ⟨rfl, rfl⟩⟩
    · rw [ht] at h
      simp at h
      rw [← h.1]
      exact ⟨rfl, fun hf => by simp at hf⟩

theorem processLoop_ok_inv {W : Type} (gw : Gateway W) (pid : String)
    (fm : FailureMode) (opts : RetryOptions) :
    ∀ (cs : List ContributorData) (s : AttestationSummary) (w : W)
      (s' : AttestationSummary) (w' : W),
      processLoop gw pid fm opts cs s w = (.ok s', w') →
      ∃ rs hs,
        s'.results = s.results ++ rs ∧
        (∀ r ∈ rs, r.success = false →
          r.atomResult = none ∧ r.tripleResult = none) ∧
        s'.attestationsCreated + s'.attestationsUpdated
          = s.attestationsCreated + s.attestationsUpdated + countSuccess rs ∧
        s'.totalCost = s.totalCost
          + (rs.map (fun r => if r.success then recordedCost r else 0)).sum ∧
        s'.transactionHashes = s.transactionHashes ++ hs ∧
        "0x0" ∉ hs := by
  intro cs
  induction cs with
  | nil =>
    intro s w s' w' h
    simp [processLoop] at h
    refine ⟨[], [], ?_, ?_, ?_, ?_, ?_, ?_⟩ <;> simp [h.1.symm, countSuccess]
  | cons c rest ih =>
    intro s w s' w' h
    rw [processLoop] at h
    rcases hpc : processContributor gw c pid fm opts w with ⟨pres, w1⟩
    rw [hpc] at h
    cases pres with
    | error e => simp at h
    | ok r =>
      dsimp only at h
      obtain ⟨rs, hs, h1, h2, h3, h4, h5, h6⟩ :=
        ih (summaryAddResult s r) w1 s' w' h
      obtain ⟨hcontrib, hshape⟩ :=
        processContributor_ok_shape gw c pid fm opts w w1 r hpc
      refine ⟨r :: rs, (if r.success then successHashes r else []) ++ hs,
        ?_, ?_, ?_, ?_, ?_, ?_⟩
      · rw [h1, summaryAddResult_results]
        simp
      · intro x hx
        rcases List.mem_cons.mp hx with hx | hx
        · rw [hx]; exact hshape
        · exact h2 x hx
      · rw [h3, summaryAddResult_counts]
        simp [countSuccess]
        rcases hrs : r.success
        all_goals simp [hrs]
        all_goals omega
      · rw [h4, summaryAddResult_totalCost]
        simp
        omega
      · rw [h5, summaryAddResult_hashes]
        simp
      · intro hmem
        rcases List.mem_append.mp hmem with hm | hm
        · rcases hrs : r.success
          · simp [hrs] at hm
          · simp [hrs] at hm
            exact not_mem_successHashes r hm
        · exact h6 hm

theorem resultOutcomes_cost_sum (r : ContributorProcessingResult) :
    ((resultOutcomes r).map Prod.fst).sum = recordedCost r := by
  unfold resultOutcomes recordedCost
  rcases r.atomResult <;> rcases r.tripleResult <;> simp

theorem flatten_cost_sum (l : List ContributorProcessingResult) :
    (((l.map resultOutcomes).flatten).map Prod.fst).sum
      = (l.map recordedCost).sum := by
  induction l with
  | nil => simp
  | cons x xs ih =>
    simp only [List.map_cons, List.flatten_cons, List.map_append,
      List.sum_append, List.sum_cons]
    rw [resultOutcomes_cost_sum, ih]

theorem sumCostAll_summaryOutcomes (pr : AtomCreationResult)
    (s : AttestationSummary) :
    sumCostAll (summaryOutcomes pr s)
      = pr.cost + (s.results.map recordedCost).sum := by
  unfold sumCostAll summaryOutcomes
  simp only [List.map_cons, List.sum_cons]
  rw [flatten_cost_sum]

theorem sum_if_success_eq (rs : List ContributorProcessingResult)
    (hshape : ∀ r ∈ rs, r.success = false →
      r.atomResult = none ∧ r.tripleResult = none) :
    (rs.map (fun r => if r.success then recordedCost r else 0)).sum
      = (rs.map recordedCost).sum := by
  induction rs with
  | nil => simp
  | cons x xs ih =>
    simp only [List.map_cons, List.sum_cons]
    have hrest := ih (fun r hr => hshape r (List.mem_cons_of_mem _ hr))
    rcases hsx : x.success
    · have hx := hshape x (List.mem_cons_self _ _) hsx
      have h0 : recordedCost x = 0 := by
        simp [recordedCost, hx.1, hx.2]
      simp [hsx, h0, hrest]
    · simp [hsx, hrest]

/-! ### The claims -/

/-- C1: for any subject descriptor, ensuring the subject twice with the
same url key against a fresh ledger (whose create registers the key)
yields `existed = false` on the first call; the second call returns
`existed = true`, the same atom id, cost 0 and the sentinel txHash
`"0x0"`, and leaves the ledger untouched (no create and no stake
transaction). -/
theorem claim_C1_ensure_subject_idempotent
    (atomData : ThingAtomData) (md bal : Nat) (addr : String)
    (opts : RetryOptions) (h1 : 1 ≤ opts.maxAttempts) (h2 : md ≤ bal) :
    ∃ r1 r2 : AtomCreationResult,
      (ensureProjectAtom (mkLedgerGateway md addr) atomData opts
          (initLedger bal)).result = .ok r1 ∧
      r1.existed = false ∧
      (ensureProjectAtom (mkLedgerGateway md addr) atomData opts
          (ensureProjectAtom (mkLedgerGateway md addr) atomData opts
            (initLedger bal)).world).result = .ok r2 ∧
      r2.existed = true ∧ r2.atomId = r1.atomId ∧ r2.cost = 0 ∧
      r2.txHash = "0x0" ∧
      (ensureProjectAtom (mkLedgerGateway md addr) atomData opts
          (ensureProjectAtom (mkLedgerGateway md addr) atomData opts
            (initLedger bal)).world).world =
        (ensureProjectAtom (mkLedgerGateway md addr) atomData opts
          (initLedger bal)).world := by
  have hnl := Nat.not_lt.mpr h2
  have hbody1 : ensureAtomBody (mkLedgerGateway md addr)
      "Failed to create project atom" atomData (initLedger bal)
      = (.ok ⟨atomIdOf atomData.url, bigIntOfHex (atomIdOf atomData.url),
              txHashOf 0, md, false⟩,
         ⟨[(atomData.url, atomIdOf atomData.url)], [], bal - md, 1⟩) := by
    simp [ensureAtomBody, ensureAtomRest, foundAtomId, mkLedgerGateway,
      initLedger, hnl]
  have hout1 : ensureProjectAtom (mkLedgerGateway md addr) atomData opts
      (initLedger bal)
      = ⟨.ok ⟨atomIdOf atomData.url, bigIntOfHex (atomIdOf atomData.url),
              txHashOf 0, md, false⟩,
         ⟨[(atomData.url, atomIdOf atomData.url)], [], bal - md, 1⟩, 1, []⟩ :=
    withRetry_first_ok _ opts _ _ _ h1 hbody1
  have hbody2 : ensureAtomBody (mkLedgerGateway md addr)
      "Failed to create project atom" atomData
      (⟨[(atomData.url, atomIdOf atomData.url)], [], bal - md, 1⟩ : LedgerState)
      = (.ok ⟨atomIdOf atomData.url, bigIntOfHex (atomIdOf atomData.url),
              "0x0", 0, true⟩,
         ⟨[(atomData.url, atomIdOf atomData.url)], [], bal - md, 1⟩) := by
    simp [ensureAtomBody, ensureAtomRest, foundAtomId, mkLedgerGateway,
      truthyId, List.lookup, atomIdOf_ne_empty]
  have hout2 : ensureProjectAtom (mkLedgerGateway md addr) atomData opts
      (⟨[(atomData.url, atomIdOf atomData.url)], [], bal - md, 1⟩ : LedgerState)
      = ⟨.ok ⟨atomIdOf atomData.url, bigIntOfHex (atomIdOf atomData.url),
              "0x0", 0, true⟩,
         ⟨[(atomData.url, atomIdOf atomData.url)], [], bal - md, 1⟩, 1, []⟩ :=
    withRetry_first_ok _ opts _ _ _ h1 hbody2
  refine ⟨⟨atomIdOf atomData.url, bigIntOfHex (atomIdOf atomData.url),
            txHashOf 0, md, false⟩,
          ⟨atomIdOf atomData.url, bigIntOfHex (atomIdOf atomData.url),
            "0x0", 0, true⟩,
          by rw [hout1], rfl, ?_, rfl, rfl, rfl, rfl, ?_⟩
  · rw [hout1]
    show (ensureProjectAtom (mkLedgerGateway md addr) atomData opts
      (⟨[(atomData.url, atomIdOf atomData.url)], [], bal - md, 1⟩
        : LedgerState)).result = _
    rw [hout2]
  · rw [hout1]
    show (ensureProjectAtom (mkLedgerGateway md addr) atomData opts
      (⟨[(atomData.url, atomIdOf atomData.url)], [], bal - md, 1⟩
        : LedgerState)).world = _
    rw [hout2]

/-- C1 witness: the double ensure-subject run at a concrete descriptor,
deposit 1 wei and balance 5 wei. -/
theorem claim_C1_ensure_subject_idempotent_witness :
    1 ≤ (RetryOptions.mk 3 10 true 50).maxAttempts ∧ (1 : Nat) ≤ 5 ∧
    (∃ r1 r2 : AtomCreationResult,
      (ensureProjectAtom (mkLedgerGateway 1 "0xfunder")
          ⟨"octo/repo", "a repo", "https://example.com/repo", none⟩
          ⟨3, 10, true, 50⟩ (initLedger 5)).result = .ok r1 ∧
      r1.existed = false ∧
      (ensureProjectAtom (mkLedgerGateway 1 "0xfunder")
          ⟨"octo/repo", "a repo", "https://example.com/repo", none⟩
          ⟨3, 10, true, 50⟩
          (ensureProjectAtom (mkLedgerGateway 1 "0xfunder")
            ⟨"octo/repo", "a repo", "https://example.com/repo", none⟩
            ⟨3, 10, true, 50⟩ (initLedger 5)).world).result = .ok r2 ∧
      r2.existed = true ∧ r2.atomId = r1.atomId ∧ r2.cost = 0 ∧
      r2.txHash = "0x0" ∧
      (ensureProjectAtom (mkLedgerGateway 1 "0xfunder")
          ⟨"octo/repo", "a repo", "https://example.com/repo", none⟩
          ⟨3, 10, true, 50⟩
          (ensureProjectAtom (mkLedgerGateway 1 "0xfunder")
            ⟨"octo/repo", "a repo", "https://example.com/repo", none⟩
            ⟨3, 10, true, 50⟩ (initLedger 5)).world).world =
        (ensureProjectAtom (mkLedgerGateway 1 "0xfunder")
          ⟨"octo/repo", "a repo", "https://example.com/repo", none⟩
          ⟨3, 10, true, 50⟩ (initLedger 5)).world) :=
  ⟨by decide, by decide,
   claim_C1_ensure_subject_idempotent
     ⟨"octo/repo", "a repo", "https://example.com/repo", none⟩ 1 5 "0xfunder"
     ⟨3, 10, true, 50⟩ (by decide) (by decide)⟩

/-- C2: ensuring the same attestation triple twice yields
`existed = false` then `existed = true`, and in both runs the returned
cost equals the minimum deposit and is strictly positive — a stake
deposit is added even when the triple already exists. -/
theorem claim_C2_ensure_relationship_accumulates
    (cId pId : String) (md bal : Nat) (addr : String)
    (opts : RetryOptions) (h1 : 1 ≤ opts.maxAttempts)
    (h2 : md + md ≤ bal) (h3 : 0 < md) :
    ∃ r1 r2 : TripleCreationResult,
      (ensureAttestationTriple (mkLedgerGateway md addr) cId pId opts
          (initLedger bal)).result = .ok r1 ∧
      r1.existed = false ∧ r1.cost = md ∧ 0 < r1.cost ∧
      (ensureAttestationTriple (mkLedgerGateway md addr) cId pId opts
          (ensureAttestationTriple (mkLedgerGateway md addr) cId pId opts
            (initLedger bal)).world).result = .ok r2 ∧
      r2.existed = true ∧ r2.cost = md ∧ 0 < r2.cost := by
  have hnl1 : ¬ (bal < md) := by omega
  have hnl2 : ¬ (bal - md < md) := by omega
  have htid := tripleIdOf_ne_empty cId WAS_ASSOCIATED_WITH_PREDICATE_ID pId
  have hbody1 : ensureTripleBody (mkLedgerGateway md addr) cId pId
      (initLedger bal)
      = (.ok ⟨tripleIdOf cId WAS_ASSOCIATED_WITH_PREDICATE_ID pId,
              bigIntOfHex (tripleIdOf cId WAS_ASSOCIATED_WITH_PREDICATE_ID pId),
              txHashOf 0, md, false⟩,
         ⟨[], [(tripleIdOf cId WAS_ASSOCIATED_WITH_PREDICATE_ID pId,
                tripleIdOf cId WAS_ASSOCIATED_WITH_PREDICATE_ID pId)],
          bal - md, 1⟩) := by
    simp [ensureTripleBody, ensureTripleRest, tripleExistsOf, mkLedgerGateway,
      initLedger, hnl1]
  have hout1 : ensureAttestationTriple (mkLedgerGateway md addr) cId pId opts
      (initLedger bal)
      = ⟨.ok ⟨tripleIdOf cId WAS_ASSOCIATED_WITH_PREDICATE_ID pId,
              bigIntOfHex (tripleIdOf cId WAS_ASSOCIATED_WITH_PREDICATE_ID pId),
              txHashOf 0, md, false⟩,
         ⟨[], [(tripleIdOf cId WAS_ASSOCIATED_WITH_PREDICATE_ID pId,
                tripleIdOf cId WAS_ASSOCIATED_WITH_PREDICATE_ID pId)],
          bal - md, 1⟩, 1, []⟩ :=
    withRetry_first_ok _ opts _ _ _ h1 hbody1
  have hbody2 : ensureTripleBody (mkLedgerGateway md addr) cId pId
      (⟨[], [(tripleIdOf cId WAS_ASSOCIATED_WITH_PREDICATE_ID pId,
              tripleIdOf cId WAS_ASSOCIATED_WITH_PREDICATE_ID pId)],
        bal - md, 1⟩ : LedgerState)
      = (.ok ⟨tripleIdOf cId WAS_ASSOCIATED_WITH_PREDICATE_ID pId,
              bigIntOfHex (tripleIdOf cId WAS_ASSOCIATED_WITH_PREDICATE_ID pId),
              txHashOf 1, md, true⟩,
         ⟨[], [(tripleIdOf cId WAS_ASSOCIATED_WITH_PREDICATE_ID pId,
                tripleIdOf cId WAS_ASSOCIATED_WITH_PREDICATE_ID pId)],
          bal - md - md, 2⟩) := by
    simp [ensureTripleBody, ensureTripleRest, tripleExistsOf, mkLedgerGateway,
      truthyId, List.lookup, htid, hnl2]
  have hout2 : ensureAttestationTriple (mkLedgerGateway md addr) cId pId opts
      (⟨[], [(tripleIdOf cId WAS_ASSOCIATED_WITH_PREDICATE_ID pId,
              tripleIdOf cId WAS_ASSOCIATED_WITH_PREDICATE_ID pId)],
        bal - md, 1⟩ : LedgerState)
      = ⟨.ok ⟨tripleIdOf cId WAS_ASSOCIATED_WITH_PREDICATE_ID pId,
              bigIntOfHex (tripleIdOf cId WAS_ASSOCIATED_WITH_PREDICATE_ID pId),
              txHashOf 1, md, true⟩,
         ⟨[], [(tripleIdOf cId WAS_ASSOCIATED_WITH_PREDICATE_ID pId,
                tripleIdOf cId WAS_ASSOCIATED_WITH_PREDICATE_ID pId)],
          bal - md - md, 2⟩, 1, []⟩ :=
    withRetry_first_ok _ opts _ _ _ h1 hbody2
  refine ⟨⟨tripleIdOf cId WAS_ASSOCIATED_WITH_PREDICATE_ID pId,
           bigIntOfHex (tripleIdOf cId WAS_ASSOCIATED_WITH_PREDICATE_ID pId),
           txHashOf 0, md, false⟩,
          ⟨tripleIdOf cId WAS_ASSOCIATED_WITH_PREDICATE_ID pId,
           bigIntOfHex (tripleIdOf cId WAS_ASSOCIATED_WITH_PREDICATE_ID pId),
           txHashOf 1, md, true⟩,
          by rw [hout1], rfl, rfl, h3, ?_, rfl, rfl, h3⟩
  rw [hout1]
  show (ensureAttestationTriple (mkLedgerGateway md addr) cId pId opts
    (⟨[], [(tripleIdOf cId WAS_ASSOCIATED_WITH_PREDICATE_ID pId,
            tripleIdOf cId WAS_ASSOCIATED_WITH_PREDICATE_ID pId)],
      bal - md, 1⟩ : LedgerState)).result = _
  rw [hout2]

/-- C2 witness: the double ensure-relationship run at concrete atom ids,
deposit 1 wei and balance 5 wei. -/
theorem claim_C2_ensure_relationship_accumulates_witness :
    1 ≤ (RetryOptions.mk 3 10 true 50).maxAttempts ∧ (1 + 1 : Nat) ≤ 5 ∧
    (0 : Nat) < 1 ∧
    (∃ r1 r2 : TripleCreationResult,
      (ensureAttestationTriple (mkLedgerGateway 1 "0xfunder") "0xc" "0xp"
          ⟨3, 10, true, 50⟩ (initLedger 5)).result = .ok r1 ∧
      r1.existed = false ∧ r1.cost = 1 ∧ 0 < r1.cost ∧
      (ensureAttestationTriple (mkLedgerGateway 1 "0xfunder") "0xc" "0xp"
          ⟨3, 10, true, 50⟩
          (ensureAttestationTriple (mkLedgerGateway 1 "0xfunder") "0xc" "0xp"
            ⟨3, 10, true, 50⟩ (initLedger 5)).world).result = .ok r2 ∧
      r2.existed = true ∧ r2.cost = 1 ∧ 0 < r2.cost) :=
  ⟨by decide, by decide, by decide,
   claim_C2_ensure_relationship_accumulates "0xc" "0xp" 1 5 "0xfunder"
     ⟨3, 10, true, 50⟩ (by decide) (by decide) (by decide)⟩

/-- C3 (amended): for every ResourceOutcome returned by a subject ensure
operation (project or contributor atom variant, over any gateway),
`existedBefore = true` implies `cost = 0` and `txRef = "0x0"`.  The
relationship variant does not satisfy this invariant: its found branch
deposits and reports `cost = minDeposit` with a real txRef (see the
counterexample). -/
theorem claim_C3_subject_outcome_invariant {W : Type} (gw : Gateway W)
    (atomData : ThingAtomData) (opts : RetryOptions) (w : W)
    (r : AtomCreationResult)
    (hp : (ensureProjectAtom gw atomData opts w).result = .ok r ∨
          (ensureContributorAtom gw atomData opts w).result = .ok r)
    (he : r.existed = true) :
    r.cost = 0 ∧ r.txHash = "0x0" := by
  rcases hp with hp | hp
  · obtain ⟨w1, w2, hb⟩ :=
      withRetryGo_ok_src _ opts opts.maxAttempts 1 w r hp
    exact ensureAtomBody_ok_existed gw _ atomData w1 w2 r hb he
  · obtain ⟨w1, w2, hb⟩ :=
      withRetryGo_ok_src _ opts opts.maxAttempts 1 w r hp
    exact ensureAtomBody_ok_existed gw _ atomData w1 w2 r hb he

/-- C3 witness: a subject ensure against a ledger already holding the url
key returns an existed outcome with cost 0 and the sentinel hash. -/
theorem claim_C3_subject_outcome_invariant_witness :
    ((ensureProjectAtom (mkLedgerGateway 1 "0xfunder")
        ⟨"octo/repo", "a repo", "https://example.com/repo", none⟩
        ⟨3, 10, true, 50⟩
        ⟨[("https://example.com/repo", "atom-https://example.com/repo")],
         [], 5, 0⟩).result
      = .ok ⟨"atom-https://example.com/repo",
             bigIntOfHex "atom-https://example.com/repo", "0x0", 0, true⟩) ∧
    (AtomCreationResult.mk "atom-https://example.com/repo"
        (bigIntOfHex "atom-https://example.com/repo") "0x0" 0 true).existed
      = true ∧
    (AtomCreationResult.mk "atom-https://example.com/repo"
        (bigIntOfHex "atom-https://example.com/repo") "0x0" 0 true).cost = 0 ∧
    (AtomCreationResult.mk "atom-https://example.com/repo"
        (bigIntOfHex "atom-https://example.com/repo") "0x0" 0 true).txHash
      = "0x0" := by
  have h1 : (ensureProjectAtom (mkLedgerGateway 1 "0xfunder")
      ⟨"octo/repo", "a repo", "https://example.com/repo", none⟩
      ⟨3, 10, true, 50⟩
      ⟨[("https://example.com/repo", "atom-https://example.com/repo")],
       [], 5, 0⟩).result
      = .ok ⟨"atom-https://example.com/repo",
             bigIntOfHex "atom-https://example.com/repo", "0x0", 0, true⟩ := by
    rfl
  have h2 := claim_C3_subject_outcome_invariant (mkLedgerGateway 1 "0xfunder")
    ⟨"octo/repo", "a repo", "https://example.com/repo", none⟩
    ⟨3, 10, true, 50⟩
    ⟨[("https://example.com/repo", "atom-https://example.com/repo")], [], 5, 0⟩
    ⟨"atom-https://example.com/repo",
     bigIntOfHex "atom-https://example.com/repo", "0x0", 0, true⟩
    (Or.inl h1) rfl
  exact ⟨h1, rfl, h2⟩

/-- C3 counterexample: a relationship ensure against a ledger already
holding the triple returns an outcome with `existed = true` yet cost
1 ≠ 0 and a real (non-sentinel) transaction hash, refuting the claimed
invariant for "any ensure operation". -/
theorem claim_C3_counterexample :
    (ensureAttestationTriple (mkLedgerGateway 1 "0xfunder") "0xc" "0xp"
        ⟨3, 10, true, 50⟩
        ⟨[], [(tripleIdOf "0xc" WAS_ASSOCIATED_WITH_PREDICATE_ID "0xp",
               tripleIdOf "0xc" WAS_ASSOCIATED_WITH_PREDICATE_ID "0xp")],
         5, 0⟩).result
      = .ok ⟨tripleIdOf "0xc" WAS_ASSOCIATED_WITH_PREDICATE_ID "0xp",
             bigIntOfHex (tripleIdOf "0xc" WAS_ASSOCIATED_WITH_PREDICATE_ID "0xp"),
             txHashOf 0, 1, true⟩ ∧
    (1 : Nat) ≠ 0 ∧ txHashOf 0 ≠ "0x0" :=
  ⟨rfl, by decide, by decide⟩

/-- C6: with maxAttempts = 3 and an operation raising a retryable error
on every invocation, `withRetry` invokes it exactly 3 times (calls = 3),
rethrows the last raised error, and emits one warning per retried
non-final failure (the two recorded sleeps, one warning each); with an
operation raising a non-retryable classified error it invokes it exactly
once and rethrows that error with no warning and no sleep. -/
theorem claim_C6_retry_termination {W α : Type} (err : W → JsError)
    (step : W → W) (opts : RetryOptions) (w : W)
    (hmax : opts.maxAttempts = 3) :
    ((∀ u, (err u).isFatal = false) →
      withRetry (fun u => ((.error (err u) : Except JsError α), step u)) opts w
        = ⟨.error (some (err (step (step w)))), step (step (step w)), 3,
           [backoffDelay opts 1, backoffDelay opts 2]⟩) ∧
    ((err w).isFatal = true →
      withRetry (fun u => ((.error (err u) : Except JsError α), step u)) opts w
        = ⟨.error (some (err w)), step w, 1, []⟩) := by
  constructor
  · intro hret
    have h1 : withRetryGo
        (fun u => ((.error (err u) : Except JsError α), step u)) opts 1 3 w
        = ⟨(withRetryGo (fun u => ((.error (err u) : Except JsError α), step u))
              opts 2 2 (step w)).result,
           (withRetryGo (fun u => ((.error (err u) : Except JsError α), step u))
              opts 2 2 (step w)).world,
           (withRetryGo (fun u => ((.error (err u) : Except JsError α), step u))
              opts 2 2 (step w)).calls + 1,
           backoffDelay opts 1 ::
             (withRetryGo (fun u => ((.error (err u) : Except JsError α), step u))
                opts 2 2 (step w)).delays⟩ :=
      withRetryGo_retry _ opts 1 1 w (step w) (err w) rfl (hret w)
    have h2 : withRetryGo
        (fun u => ((.error (err u) : Except JsError α), step u)) opts 2 2 (step w)
        = ⟨(withRetryGo (fun u => ((.error (err u) : Except JsError α), step u))
              opts 3 1 (step (step w))).result,
           (withRetryGo (fun u => ((.error (err u) : Except JsError α), step u))
              opts 3 1 (step (step w))).world,
           (withRetryGo (fun u => ((.error (err u) : Except JsError α), step u))
              opts 3 1 (step (step w))).calls + 1,
           backoffDelay opts 2 ::
             (withRetryGo (fun u => ((.error (err u) : Except JsError α), step u))
                opts 3 1 (step (step w))).delays⟩ :=
      withRetryGo_retry _ opts 2 0 (step w) (step (step w)) (err (step w)) rfl
        (hret (step w))
    have h3 : withRetryGo
        (fun u => ((.error (err u) : Except JsError α), step u)) opts 3 1
        (step (step w))
        = ⟨.error (some (err (step (step w)))), step (step (step w)), 1, []⟩ :=
      withRetryGo_last _ opts 3 (step (step w)) _ _ rfl
    unfold withRetry
    rw [hmax, h1, h2, h3]
  · intro hfat
    unfold withRetry
    rw [hmax]
    exact withRetryGo_fatal _ opts 1 2 w (step w) (err w) rfl hfat

/-- C6 witness: a persistently-failing network error is attempted 3 times
with two warnings/sleeps; an invalid-input error is attempted once. -/
theorem claim_C6_retry_termination_witness :
    (withRetry (fun u : Nat =>
        ((.error (.network "boom") : Except JsError Unit), u + 1))
        ⟨3, 10, true, 50⟩ 0
      = ⟨.error (some (.network "boom")), 3, 3, [10, 20]⟩) ∧
    (withRetry (fun u : Nat =>
        ((.error (.invalidInput "bad") : Except JsError Unit), u + 1))
        ⟨3, 10, true, 50⟩ 0
      = ⟨.error (some (.invalidInput "bad")), 1, 1, []⟩) :=
  ⟨(claim_C6_retry_termination (fun _ => .network "boom") (fun u => u + 1)
      ⟨3, 10, true, 50⟩ 0 rfl).1 (fun _ => rfl),
   (claim_C6_retry_termination (fun _ => .invalidInput "bad") (fun u => u + 1)
      ⟨3, 10, true, 50⟩ 0 rfl).2 rfl⟩

/-- An operation that fails with a retryable error on every invocation
makes the loop record exactly the sleeps of attempts a, a+1, … until the
permitted attempts run out. -/
theorem withRetryGo_fail_delays {W α : Type} (err : W → JsError) (step : W → W)
    (opts : RetryOptions) (hret : ∀ u, (err u).isFatal = false) :
    ∀ (rem a : Nat) (w : W),
      (withRetryGo (fun u => ((.error (err u) : Except JsError α), step u))
        opts a rem w).delays
        = (List.range (rem - 1)).map (fun i => backoffDelay opts (a + i)) := by
  intro rem
  induction rem with
  | zero => intro a w; simp [withRetryGo]
  | succ n ih =>
    intro a w
    rcases n with _ | m
    · rw [withRetryGo_last _ opts a w (step w) (err w) rfl]
      simp
    · rw [withRetryGo_retry _ opts a m w (step w) (err w) rfl (hret w)]
      show backoffDelay opts a ::
        (withRetryGo (fun u => ((.error (err u) : Except JsError α), step u))
          opts (a + 1) (m + 1) (step w)).delays = _
      rw [ih (a + 1) (step w)]
      simp only [Nat.add_sub_cancel, List.range_succ_eq_map, List.map_cons,
        List.map_map, Nat.add_zero]
      congr 1
      apply List.map_congr_left
      intro i _
      simp only [Function.comp_apply]
      congr 1
      omega

/-- C7: the sleep before the attempt following retried attempt n equals
`min(baseDelay * 2 ^ (n-1), maxDelay)` under exponential backoff and
`baseDelay` otherwise, never exceeding `maxDelay` when exponential; the
recorded sleeps of an always-failing retryable run are exactly those of
attempts 1 … maxAttempts-1 (so the first attempt incurs no delay); and
concretely with baseDelay 10, maxDelay 50 three retried attempts sleep
10, 20, 40, all within the cap. -/
theorem claim_C7_backoff_schedule :
    (∀ (opts : RetryOptions) (n : Nat), opts.exponentialBackoff = true →
       backoffDelay opts n = min (opts.delayMs * 2 ^ (n - 1)) opts.maxDelayMs) ∧
    (∀ (opts : RetryOptions) (n : Nat), opts.exponentialBackoff = false →
       backoffDelay opts n = opts.delayMs) ∧
    (∀ (opts : RetryOptions) (n : Nat), opts.exponentialBackoff = true →
       backoffDelay opts n ≤ opts.maxDelayMs) ∧
    (∀ (W α : Type) (err : W → JsError) (step : W → W) (opts : RetryOptions)
       (w : W), (∀ u, (err u).isFatal = false) →
       (withRetry (fun u => ((.error (err u) : Except JsError α), step u))
         opts w).delays
         = (List.range (opts.maxAttempts - 1)).map
             (fun i => backoffDelay opts (i + 1))) ∧
    ((withRetry (fun u : Nat =>
          ((.error (.network "slow") : Except JsError Unit), u + 1))
        ⟨4, 10, true, 50⟩ 0).delays = [10, 20, 40] ∧
     (withRetry (fun u : Nat =>
          ((.error (.network "slow") : Except JsError Unit), u + 1))
        ⟨4, 10, true, 50⟩ 0).calls = 4 ∧
     ∀ d ∈ [10, 20, 40], d ≤ 50) := by
  refine ⟨?_, ?_, ?_, ?_, rfl, rfl, by decide⟩
  · intro opts n h
    simp [backoffDelay, h]
  · intro opts n h
    simp [backoffDelay, h]
  · intro opts n h
    simp [backoffDelay, h]
  · intro W α err step opts w hret
    unfold withRetry
    rw [withRetryGo_fail_delays err step opts hret opts.maxAttempts 1 w]
    apply List.map_congr_left
    intro i _
    congr 1
    omega

/-- C7 witness: the backoff formulas and the delays schedule evaluated at
concrete policies and a concrete always-failing operation. -/
theorem claim_C7_backoff_schedule_witness :
    ((⟨4, 10, true, 50⟩ : RetryOptions).exponentialBackoff = true ∧
     backoffDelay ⟨4, 10, true, 50⟩ 1 = min (10 * 2 ^ 0) 50) ∧
    ((⟨4, 10, false, 50⟩ : RetryOptions).exponentialBackoff = false ∧
     backoffDelay ⟨4, 10, false, 50⟩ 2 = 10) ∧
    backoffDelay ⟨4, 10, true, 50⟩ 4 ≤ 50 ∧
    (withRetry (fun u : Nat =>
        ((.error (.network "slow") : Except JsError Unit), u + 1))
      ⟨3, 10, true, 50⟩ 0).delays
      = (List.range 2).map (fun i => backoffDelay ⟨3, 10, true, 50⟩ (i + 1)) :=
  ⟨⟨rfl, claim_C7_backoff_schedule.1 ⟨4, 10, true, 50⟩ 1 rfl⟩,
   ⟨rfl, claim_C7_backoff_schedule.2.1 ⟨4, 10, false, 50⟩ 2 rfl⟩,
   claim_C7_backoff_schedule.2.2.1 ⟨4, 10, true, 50⟩ 4 rfl,
   claim_C7_backoff_schedule.2.2.2.1 Nat Unit (fun _ => .network "slow")
     (fun u => u + 1) ⟨3, 10, true, 50⟩ 0 (fun _ => rfl)⟩

/-- C8 (amended): for the subject ensure variants, every error escaping
the operation is a wrapped non-retryable `TransactionFailed` carrying the
attempted operation's context; for the relationship variant, every
escaping error is either such a wrapped `TransactionFailed` (deposit /
create / confirmation failures) or the unwrapped funds-pre-check error
(the pre-check runs before the found/create branch, outside the wrapping
`try`, contrary to the claim — see the counterexample). -/
theorem claim_C8_fatal_error_wrapping :
    (∀ (W : Type) (gw : Gateway W) (atomData : ThingAtomData)
       (opts : RetryOptions) (w : W) (e : JsError),
       ((ensureProjectAtom gw atomData opts w).result = .error (some e) ∨
        (ensureContributorAtom gw atomData opts w).result = .error (some e)) →
       (∃ m, e = .transactionFailed m none) ∧ e.isFatal = true) ∧
    (∀ (W : Type) (gw : Gateway W) (cId pId : String)
       (opts : RetryOptions) (w : W) (e : JsError),
       (ensureAttestationTriple gw cId pId opts w).result = .error (some e) →
       ((∃ m, e = .transactionFailed m none) ∧ e.isFatal = true) ∨
       (∃ w1 w2, gw.ensureSufficientBalance gw.minDeposit w1
          = (.error e, w2))) := by
  constructor
  · intro W gw atomData opts w e hp
    rcases hp with hp | hp
    · obtain ⟨w1, w2, hb⟩ := withRetryGo_err_src _ opts opts.maxAttempts 1 w e hp
      obtain ⟨m, hm⟩ := ensureAtomBody_err gw _ atomData w1 w2 e hb
      exact ⟨⟨m, hm⟩, by rw [hm]; rfl⟩
    · obtain ⟨w1, w2, hb⟩ := withRetryGo_err_src _ opts opts.maxAttempts 1 w e hp
      obtain ⟨m, hm⟩ := ensureAtomBody_err gw _ atomData w1 w2 e hb
      exact ⟨⟨m, hm⟩, by rw [hm]; rfl⟩
  · intro W gw cId pId opts w e hp
    obtain ⟨w1, w2, hb⟩ := withRetryGo_err_src _ opts opts.maxAttempts 1 w e hp
    rcases ensureTripleBody_err gw cId pId w1 w2 e hb with ⟨m, hm⟩ | hr
    · exact Or.inl ⟨⟨m, hm⟩, by rw [hm]; rfl⟩
    · exact Or.inr hr

/-- C8 witness: a ledger whose create transaction fails yields a wrapped
fatal `TransactionFailed` out of ensureProjectAtom. -/
theorem claim_C8_fatal_error_wrapping_witness :
    ((ensureProjectAtom brokenCreateGateway
        ⟨"octo/repo", "a repo", "https://example.com/repo", none⟩
        ⟨3, 10, true, 50⟩ (initLedger 5)).result
      = .error (some (.transactionFailed
          "Failed to create project atom: rpc down" none))) ∧
    (∃ m, (JsError.transactionFailed
        "Failed to create project atom: rpc down" none)
        = .transactionFailed m none) ∧
    (JsError.transactionFailed
        "Failed to create project atom: rpc down" none).isFatal = true := by
  have h1 : (ensureProjectAtom brokenCreateGateway
      ⟨"octo/repo", "a repo", "https://example.com/repo", none⟩
      ⟨3, 10, true, 50⟩ (initLedger 5)).result
      = .error (some (.transactionFailed
          "Failed to create project atom: rpc down" none)) := rfl
  have h2 := claim_C8_fatal_error_wrapping.1 LedgerState brokenCreateGateway
    ⟨"octo/repo", "a repo", "https://example.com/repo", none⟩
    ⟨3, 10, true, 50⟩ (initLedger 5)
    (.transactionFailed "Failed to create project atom: rpc down" none)
    (Or.inl h1)
  exact ⟨h1, h2.1, h2.2⟩

/-- C8 counterexample: with insufficient funds, the relationship ensure
propagates the raw `InsufficientFunds` error, not a wrapped
`TransactionFailed` as claimed for both variants. -/
theorem claim_C8_counterexample :
    (ensureAttestationTriple (mkLedgerGateway 1 "0xfunder") "0xc" "0xp"
        ⟨3, 10, true, 50⟩ (initLedger 0)).result
      = .error (some (.insufficientFunds
          "Insufficient balance. Required: 1 wei, Available: 0 wei")) ∧
    (match (ensureAttestationTriple (mkLedgerGateway 1 "0xfunder") "0xc" "0xp"
        ⟨3, 10, true, 50⟩ (initLedger 0)).result with
     | .error (some (.transactionFailed _ _)) => False
     | _ => True) :=
  ⟨rfl, trivial⟩

/-- C9: when the existence lookup itself raises any error, both ensure
bodies proceed exactly as in the not-found case — the body equals the
not-found continuation, and the resolved found-state of an erroring
lookup equals that of an empty lookup result; the lookup failure never
propagates. -/
theorem claim_C9_lookup_degrades :
    (∀ (W : Type) (gw : Gateway W) (msg : String) (atomData : ThingAtomData)
       (w w' : W) (e : JsError),
       gw.findAtomIds [atomData.url] w = (.error e, w') →
       ensureAtomBody gw msg atomData w
         = ensureAtomRest gw msg atomData none w' ∧
       foundAtomId (.error e) = foundAtomId (.ok [])) ∧
    (∀ (W : Type) (gw : Gateway W) (cId pId : String) (w w' : W) (e : JsError),
       gw.findTripleIds gw.address
           [(cId, WAS_ASSOCIATED_WITH_PREDICATE_ID, pId)] w = (.error e, w') →
       ensureTripleBody gw cId pId w
         = ensureTripleRest gw cId pId
             (gw.calculateTripleId cId WAS_ASSOCIATED_WITH_PREDICATE_ID pId)
             false w' ∧
       tripleExistsOf (.error e) = tripleExistsOf (.ok [])) := by
  constructor
  · intro W gw msg atomData w w' e hfind
    constructor
    · unfold ensureAtomBody
      rw [hfind]
      rfl
    · rfl
  · intro W gw cId pId w w' e hfind
    constructor
    · unfold ensureTripleBody
      rw [hfind]
      rfl
    · rfl

/-- C9 witness: a gateway whose lookups fail with a network error makes
both ensure bodies proceed to the creation path. -/
theorem claim_C9_lookup_degrades_witness :
    (downLedgerGateway.findAtomIds ["https://example.com/repo"]
        (initLedger 5)
      = (.error (.network "graphql down"), initLedger 5)) ∧
    (ensureAtomBody downLedgerGateway "Failed to create project atom"
        ⟨"octo/repo", "a repo", "https://example.com/repo", none⟩
        (initLedger 5)
      = ensureAtomRest downLedgerGateway "Failed to create project atom"
          ⟨"octo/repo", "a repo", "https://example.com/repo", none⟩ none
          (initLedger 5)) ∧
    (downLedgerGateway.findTripleIds downLedgerGateway.address
        [("0xc", WAS_ASSOCIATED_WITH_PREDICATE_ID, "0xp")] (initLedger 5)
      = (.error (.network "graphql down"), initLedger 5)) ∧
    (ensureTripleBody downLedgerGateway "0xc" "0xp" (initLedger 5)
      = ensureTripleRest downLedgerGateway "0xc" "0xp"
          (downLedgerGateway.calculateTripleId "0xc"
            WAS_ASSOCIATED_WITH_PREDICATE_ID "0xp") false (initLedger 5)) :=
  ⟨rfl,
   (claim_C9_lookup_degrades.1 LedgerState downLedgerGateway
     "Failed to create project atom"
     ⟨"octo/repo", "a repo", "https://example.com/repo", none⟩
     (initLedger 5) (initLedger 5) (.network "graphql down") rfl).1,
   rfl,
   (claim_C9_lookup_degrades.2 LedgerState downLedgerGateway "0xc" "0xp"
     (initLedger 5) (initLedger 5) (.network "graphql down") rfl).1⟩

/-- C4 (amended): every summary the orchestrator returns satisfies
`attestationsCreated + attestationsUpdated = count(successful results)`
and never carries the sentinel `'0x0'` among its transaction hashes; its
`totalCost` equals the sum of cost over ALL recorded ResourceOutcomes
(project outcome plus the atom and triple outcomes of each result) — not
over only the non-existed outcomes as claimed, since an existed triple
contributes its deposit cost (see the counterexample). -/
theorem claim_C4_summary_invariants {W : Type} (gw : Gateway W)
    (repository : RepositoryData) (contributors : List ContributorData)
    (fm : FailureMode) (opts : RetryOptions) (w : W)
    (pr : AtomCreationResult) (s : AttestationSummary) (w' : W)
    (hp : (ensureProjectAtom gw (repositoryAtomData repository) opts w).result
      = .ok pr)
    (h : processAttestations gw repository contributors fm opts w
      = (.ok s, w')) :
    s.attestationsCreated + s.attestationsUpdated = countSuccess s.results ∧
    s.totalCost = sumCostAll (summaryOutcomes pr s) ∧
    "0x0" ∉ s.transactionHashes := by
  unfold processAttestations at h
  dsimp only at h
  rw [hp] at h
  dsimp only at h
  by_cases htx : pr.txHash = "0x0"
  · rw [if_neg (by simp [htx])] at h
    rcases hpl : processLoop gw pr.atomId fm opts contributors
        { projectAtomId := pr.atomId,
          contributorCount := contributors.length,
          attestationsCreated := 0, attestationsUpdated := 0,
          transactionHashes := [], totalCost := 0 + pr.cost, results := [] }
        (ensureProjectAtom gw (repositoryAtomData repository) opts w).world
      with ⟨lres, w2⟩
    rw [hpl] at h
    cases lres with
    | error e => simp at h
    | ok s2 =>
      simp at h
      obtain ⟨rs, hs, h1, h2, h3, h4, h5, h6⟩ :=
        processLoop_ok_inv gw pr.atomId fm opts contributors _ _ _ _ hpl
      rw [← h.1] at *
      refine ⟨?_, ?_, ?_⟩
      · rw [h3, h1]
        simp
      · rw [h4, sumCostAll_summaryOutcomes, h1]
        simp
        rw [sum_if_success_eq rs h2]
      · rw [h5]
        intro hmem
        rcases List.mem_append.mp hmem with hm | hm
        · simp at hm
        · exact h6 hm
  · rw [if_pos (by simp [htx])] at h
    rcases hpl : processLoop gw pr.atomId fm opts contributors
        { projectAtomId := pr.atomId, projectAtomTxHash := some pr.txHash,
          contributorCount := contributors.length,
          attestationsCreated := 0, attestationsUpdated := 0,
          transactionHashes := [] ++ [pr.txHash], totalCost := 0 + pr.cost,
          results := [] }
        (ensureProjectAtom gw (repositoryAtomData repository) opts w).world
      with ⟨lres, w2⟩
    rw [hpl] at h
    cases lres with
    | error e => simp at h
    | ok s2 =>
      simp at h
      obtain ⟨rs, hs, h1, h2, h3, h4, h5, h6⟩ :=
        processLoop_ok_inv gw pr.atomId fm opts contributors _ _ _ _ hpl
      rw [← h.1] at *
      refine ⟨?_, ?_, ?_⟩
      · rw [h3, h1]
        simp
      · rw [h4, sumCostAll_summaryOutcomes, h1]
        simp
        rw [sum_if_success_eq rs h2]
      · rw [h5]
        intro hmem
        rcases List.mem_append.mp hmem with hm | hm
        · simp at hm
          exact htx hm.symm
        · exact h6 hm

/-- C4 witness: a one-contributor run on a fresh ledger produces the
expected summary satisfying all three (amended) conjuncts. -/
theorem claim_C4_summary_invariants_witness :
    ((ensureProjectAtom (mkLedgerGateway 1 "0xfunder")
        (repositoryAtomData sampleRepository) ⟨3, 10, true, 50⟩
        (initLedger 10)).result = .ok prA) ∧
    (processAttestations (mkLedgerGateway 1 "0xfunder") sampleRepository
        [contributorA] .warn ⟨3, 10, true, 50⟩ (initLedger 10)
      = (.ok firstRunSummary, firstRunLedger)) ∧
    (firstRunSummary.attestationsCreated + firstRunSummary.attestationsUpdated
      = countSuccess firstRunSummary.results ∧
     firstRunSummary.totalCost
      = sumCostAll (summaryOutcomes prA firstRunSummary) ∧
     "0x0" ∉ firstRunSummary.transactionHashes) :=
  ⟨rfl, rfl,
   claim_C4_summary_invariants (mkLedgerGateway 1 "0xfunder") sampleRepository
     [contributorA] .warn ⟨3, 10, true, 50⟩ (initLedger 10) prA
     firstRunSummary firstRunLedger rfl rfl⟩

/-- C4 counterexample: re-running the one-contributor attestation over a
ledger that already holds every resource yields totalCost 1 (the deposit
on the existed triple) while the cost-sum over outcomes with
existedBefore = false is 0 — refuting the claimed totalCost equation. -/
theorem claim_C4_counterexample :
    ((ensureProjectAtom (mkLedgerGateway 1 "0xfunder")
        (repositoryAtomData sampleRepository) ⟨3, 10, true, 50⟩
        firstRunLedger).result
      = .ok ⟨atomIdOf "https://example.com/repo",
             bigIntOfHex (atomIdOf "https://example.com/repo"),
             "0x0", 0, true⟩) ∧
    ((runSummary (processAttestations (mkLedgerGateway 1 "0xfunder")
        sampleRepository [contributorA] .warn ⟨3, 10, true, 50⟩
        firstRunLedger).1).map
      (fun s => (s.totalCost, sumCostNonExisted (summaryOutcomes
        ⟨atomIdOf "https://example.com/repo",
         bigIntOfHex (atomIdOf "https://example.com/repo"),
         "0x0", 0, true⟩ s)))
      = some (1, 0)) ∧
    (1 : Nat) ≠ 0 :=
  ⟨rfl, rfl, by decide⟩

/-- C5: with contributors [A, B] where B's relationship-ensure raises a
fatal InsufficientFunds error and A's processing succeeds: under 'fail'
the orchestrator surfaces that error and produces no summary; under
'warn' it returns a summary with two results, the first successful, the
second failed with the error message attached. -/
theorem claim_C5_abort_vs_continue :
    ((processAttestations (mkLedgerGateway 1 "0xfunder") sampleRepository
        [contributorA, contributorB] .fail ⟨3, 10, true, 50⟩
        (initLedger 4)).1
      = .error (.insufficientFunds
          "Insufficient balance. Required: 1 wei, Available: 0 wei")) ∧
    (runSummary (processAttestations (mkLedgerGateway 1 "0xfunder")
        sampleRepository [contributorA, contributorB] .fail ⟨3, 10, true, 50⟩
        (initLedger 4)).1 = none) ∧
    ((runSummary (processAttestations (mkLedgerGateway 1 "0xfunder")
        sampleRepository [contributorA, contributorB] .warn ⟨3, 10, true, 50⟩
        (initLedger 4)).1).map (fun s => s.results.length) = some 2) ∧
    ((runSummary (processAttestations (mkLedgerGateway 1 "0xfunder")
        sampleRepository [contributorA, contributorB] .warn ⟨3, 10, true, 50⟩
        (initLedger 4)).1).map
      (fun s => s.results.map (fun r => r.success)) = some [true, false]) ∧
    ((runSummary (processAttestations (mkLedgerGateway 1 "0xfunder")
        sampleRepository [contributorA, contributorB] .warn ⟨3, 10, true, 50⟩
        (initLedger 4)).1).map
      (fun s => s.results.map (fun r => r.error))
      = some [none, some
          "Insufficient balance. Required: 1 wei, Available: 0 wei"]) :=
  ⟨rfl, rfl, rfl, rfl, rfl⟩

/-- C10: under 'warn', a contributor whose subject-ensure succeeded but
whose relationship-ensure failed yields a failed outcome carrying only
the error message (no atomResult, no tripleResult), and the loop step
modifies only the summary's `results` field — totalCost,
transactionHashes and both counters are untouched, so the subject's
spent cost and hash are absent from the summary. -/
theorem claim_C10_warn_frame {W : Type} (gw : Gateway W)
    (c : ContributorData) (pid : String) (opts : RetryOptions) (w : W)
    (ar : AtomCreationResult) (e : Option JsError)
    (ha : (ensureContributorAtom gw (contributorAtomData c) opts w).result
      = .ok ar)
    (ht : (ensureAttestationTriple gw ar.atomId pid opts
        (ensureContributorAtom gw (contributorAtomData c) opts w).world).result
      = .error e) :
    processContributor gw c pid .warn opts w
      = (.ok { contributor := c, success := false,
               error := some (errMessageOpt e) },
         (ensureAttestationTriple gw ar.atomId pid opts
           (ensureContributorAtom gw (contributorAtomData c) opts w).world).world) ∧
    ∀ (rest : List ContributorData) (s : AttestationSummary),
      processLoop gw pid .warn opts (c :: rest) s w
        = processLoop gw pid .warn opts rest
            { s with results := s.results
                ++ [{ contributor := c, success := false,
                      error := some (errMessageOpt e) }] }
            (ensureAttestationTriple gw ar.atomId pid opts
              (ensureContributorAtom gw (contributorAtomData c) opts w).world).world := by
  have hpc : processContributor gw c pid .warn opts w
      = (.ok { contributor := c, success := false,
               error := some (errMessageOpt e) },
         (ensureAttestationTriple gw ar.atomId pid opts
           (ensureContributorAtom gw (contributorAtomData c) opts w).world).world) := by
    unfold processContributor
    dsimp only
    rw [ha]
    dsimp only
    rw [ht]
    rfl
  refine ⟨hpc, ?_⟩
  intro rest s
  rw [processLoop, hpc]
  dsimp only
  rw [summaryAddResult_failure _ _ rfl]

/-- C10 witness: contributor B's atom creation spends the whole balance,
the triple funds pre-check fails, and the loop step appends only the
failed outcome. -/
theorem claim_C10_warn_frame_witness :
    ((ensureContributorAtom (mkLedgerGateway 1 "0xfunder")
        (contributorAtomData contributorB) ⟨3, 10, true, 50⟩
        (initLedger 1)).result
      = .ok ⟨atomIdOf "https://example.com/bob",
             bigIntOfHex (atomIdOf "https://example.com/bob"),
             txHashOf 0, 1, false⟩) ∧
    ((ensureAttestationTriple (mkLedgerGateway 1 "0xfunder")
        (AtomCreationResult.mk (atomIdOf "https://example.com/bob")
          (bigIntOfHex (atomIdOf "https://example.com/bob"))
          (txHashOf 0) 1 false).atomId "0xp" ⟨3, 10, true, 50⟩
        (ensureContributorAtom (mkLedgerGateway 1 "0xfunder")
          (contributorAtomData contributorB) ⟨3, 10, true, 50⟩
          (initLedger 1)).world).result
      = .error (some (.insufficientFunds
          "Insufficient balance. Required: 1 wei, Available: 0 wei"))) ∧
    (processContributor (mkLedgerGateway 1 "0xfunder") contributorB "0xp"
        .warn ⟨3, 10, true, 50⟩ (initLedger 1)
      = (.ok { contributor := contributorB, success := false,
               error := some (errMessageOpt (some (.insufficientFunds
                 "Insufficient balance. Required: 1 wei, Available: 0 wei"))) },
         (ensureAttestationTriple (mkLedgerGateway 1 "0xfunder")
           (AtomCreationResult.mk (atomIdOf "https://example.com/bob")
             (bigIntOfHex (atomIdOf "https://example.com/bob"))
             (txHashOf 0) 1 false).atomId "0xp" ⟨3, 10, true, 50⟩
           (ensureContributorAtom (mkLedgerGateway 1 "0xfunder")
             (contributorAtomData contributorB) ⟨3, 10, true, 50⟩
             (initLedger 1)).world).world)) ∧
    (∀ (rest : List ContributorData) (s : AttestationSummary),
      processLoop (mkLedgerGateway 1 "0xfunder") "0xp" .warn
          ⟨3, 10, true, 50⟩ (contributorB :: rest) s (initLedger 1)
        = processLoop (mkLedgerGateway 1 "0xfunder") "0xp" .warn
            ⟨3, 10, true, 50⟩ rest
            { s with results := s.results
                ++ [{ contributor := contributorB, success := false,
                      error := some (errMessageOpt (some (.insufficientFunds
                        "Insufficient balance. Required: 1 wei, Available: 0 wei"))) }] }
            (ensureAttestationTriple (mkLedgerGateway 1 "0xfunder")
              (AtomCreationResult.mk (atomIdOf "https://example.com/bob")
                (bigIntOfHex (atomIdOf "https://example.com/bob"))
                (txHashOf 0) 1 false).atomId "0xp" ⟨3, 10, true, 50⟩
              (ensureContributorAtom (mkLedgerGateway 1 "0xfunder")
                (contributorAtomData contributorB) ⟨3, 10, true, 50⟩
                (initLedger 1)).world).world) := by
  have h := claim_C10_warn_frame (mkLedgerGateway 1 "0xfunder") contributorB "0xp"
    ⟨3, 10, true, 50⟩ (initLedger 1)
    ⟨atomIdOf "https://example.com/bob",
     bigIntOfHex (atomIdOf "https://example.com/bob"), txHashOf 0, 1, false⟩
    (some (.insufficientFunds
      "Insufficient balance. Required: 1 wei, Available: 0 wei"))
    rfl rfl
  exact ⟨rfl, rfl, h.1, h.2⟩

end IntuitionAction
